import Mathlib

/-
Verification of the agentic-duo backend core (state manager, slide tools,
tool executor, audio processor) against its natural-language specification.

The Python sources under src/backend are shallowly embedded as pure Lean
functions: stateful methods become functions from a state record to a new
state record, methods that may raise become Except-valued functions, and
Python dicts returned as tool results become structures with Option fields
(a missing dict key is modelled as none).  Timestamps and the session
metadata map play no role in any verified property and are omitted from the
state record; everything else follows the source line by line.
-/

set_option maxRecDepth 100000

namespace AgenticDuo

/-- A transcript entry as appended by StateManager.add_transcript_entry:
text, speaker tag and the slide index active at insertion time
(timestamp and the optional metadata dict are omitted; no verified
property depends on them). -/
structure TranscriptEntry where
  text : String
  speaker : String
  slide_index : Int
deriving DecidableEq

/-- Opaque content payload of an injection record.  The slide tools store
either a plain string (text content, summary text) or the image-generation
stub payload built from the prompt. -/
inductive Content where
  | str (s : String)
  | imageStub (prompt : String)
deriving DecidableEq

/-- Record of content injected into a slide (state_manager.InjectionRecord,
timestamp omitted). -/
structure InjectionRecord where
  slide_index : Int
  placeholder : String
  content_type : String
  content : Content
deriving DecidableEq

/-- The mutable fields of state_manager.StateManager that the verified
properties touch.  Slide indices are Int: Python ints are unbounded and,
as the proofs show, negative values are reachable. -/
structure StateManager where
  total_slides : Int
  current_slide : Int
  transcript : List TranscriptEntry
  injections : List InjectionRecord
deriving DecidableEq

/-- StateManager.__init__(total_slides): current slide 0, empty logs. -/
def StateManager.init (total_slides : Int) : StateManager :=
  { total_slides := total_slides, current_slide := 0, transcript := [], injections := [] }

/-- StateManager.set_current_slide: bounds-checked only when
total_slides > 0, otherwise any index (negative included) is committed. -/
def StateManager.set_current_slide (s : StateManager) (index : Int) :
    Except String StateManager :=
  if 0 < s.total_slides ∧ (index < 0 ∨ s.total_slides ≤ index) then
    .error ("Slide index " ++ toString index ++ " out of range (0-"
      ++ toString (s.total_slides - 1) ++ ")")
  else
    .ok { s with current_slide := index }

/-- The range validation and commit at the end of StateManager.navigate;
performed after a tentative new index has been computed, before any
mutation, so an error leaves the state untouched. -/
def navCommit (s : StateManager) (new_index : Int) :
    Except String (StateManager × Int) :=
  if 0 < s.total_slides ∧ (new_index < 0 ∨ s.total_slides ≤ new_index) then
    .error ("Cannot navigate to slide " ++ toString new_index ++ " (range: 0-"
      ++ toString (s.total_slides - 1) ++ ")")
  else
    .ok ({ s with current_slide := new_index }, new_index)

/-- StateManager.navigate.  Note the faithful rendering of the source line
for "next": the Python ternary is the SECOND ARGUMENT of min, so with
total_slides = 0 the tentative index is min(current+1, 0). -/
def StateManager.navigate (s : StateManager) (direction : String)
    (index : Option Int) : Except String (StateManager × Int) :=
  if direction = "next" then
    navCommit s (min (s.current_slide + 1)
      (if 0 < s.total_slides then s.total_slides - 1 else 0))
  else if direction = "prev" then
    navCommit s (max (s.current_slide - 1) 0)
  else if direction = "jump" then
    match index with
    | none => .error "Index required for \x27jump\x27 navigation"
    | some i => navCommit s i
  else
    .error ("Invalid direction: " ++ direction)

/-- StateManager.navigate as the caller of the Python method observes it:
a raised ValueError leaves the object unchanged (the raise precedes the
assignment in the source). -/
def navigateKeep (s : StateManager) (direction : String) (index : Option Int) :
    StateManager :=
  match s.navigate direction index with
  | .ok (s', _) => s'
  | .error _ => s

/-- StateManager.add_transcript_entry: appends, capturing the current
slide index. -/
def StateManager.add_transcript_entry (s : StateManager) (text : String)
    (speaker : String) : StateManager :=
  { s with transcript := s.transcript ++ [⟨text, speaker, s.current_slide⟩] }

/-- Python list slicing l[a:] with a possibly negative start index:
a negative start counts from the end (clamped at 0), a nonnegative start
drops that many elements. -/
def pySliceFrom (a : Int) (l : List α) : List α :=
  if a < 0 then l.drop (a + l.length).toNat else l.drop a.toNat

/-- StateManager.get_recent_transcript: `self.transcript[-n:] if
self.transcript else []`, rendered with Python slice semantics for the
start index -n. -/
def StateManager.get_recent_transcript (s : StateManager) (n : Int) :
    List TranscriptEntry :=
  if s.transcript.isEmpty then [] else pySliceFrom (-n) s.transcript

/-- StateManager.track_injection: appends a record, defaulting the slide
index to the current slide. -/
def StateManager.track_injection (s : StateManager) (placeholder : String)
    (content_type : String) (content : Content) (slide_index : Option Int) :
    StateManager :=
  { s with injections := s.injections ++
      [⟨slide_index.getD s.current_slide, placeholder, content_type, content⟩] }

/-- StateManager.set_total_slides: stores the new total with no check
against the current slide. -/
def StateManager.set_total_slides (s : StateManager) (total : Int) :
    StateManager :=
  { s with total_slides := total }

/-- StateManager.reset: current slide back to 0, both logs cleared;
total_slides untouched. -/
def StateManager.reset (s : StateManager) : StateManager :=
  { s with current_slide := 0, transcript := [], injections := [] }

/-- The public mutating operations of StateManager, as an operation
alphabet for reachability statements. -/
inductive Op where
  | setCurrentSlide (index : Int)
  | navigate (direction : String) (index : Option Int)
  | addTranscriptEntry (text speaker : String)
  | trackInjection (placeholder content_type : String) (content : Content)
      (slide_index : Option Int)
  | setTotalSlides (total : Int)
  | clearTranscript
  | clearInjections
  | reset
deriving DecidableEq

/-- Run one public operation; fallible operations return their error. -/
def applyOp (s : StateManager) : Op → Except String StateManager
  | .setCurrentSlide i => s.set_current_slide i
  | .navigate d i => (s.navigate d i).map Prod.fst
  | .addTranscriptEntry t sp => .ok (s.add_transcript_entry t sp)
  | .trackInjection p ct c si => .ok (s.track_injection p ct c si)
  | .setTotalSlides t => .ok (s.set_total_slides t)
  | .clearTranscript => .ok { s with transcript := [] }
  | .clearInjections => .ok { s with injections := [] }
  | .reset => .ok s.reset

/-- Run one public operation as the Python object experiences it: a raised
validation error leaves the state unchanged. -/
def applyOrKeep (s : StateManager) (op : Op) : StateManager :=
  match applyOp s op with
  | .ok s' => s'
  | .error _ => s

/-- Run a sequence of operations, all of which must succeed. -/
def runOps (s : StateManager) : List Op → Except String StateManager
  | [] => .ok s
  | op :: ops =>
    match applyOp s op with
    | .ok s' => runOps s' ops
    | .error _ => .error "operation failed"

/-- Run a sequence of operations, failed operations leaving the state
unchanged (the actual behaviour of the Python object across a session). -/
def runKeep (s : StateManager) : List Op → StateManager
  | [] => s
  | op :: ops => runKeep (applyOrKeep s op) ops

/-- Result dict of SlideTools.generate_summary, modelled as a structure with
Option fields: a key absent from the returned Python dict is none. -/
structure SummaryResult where
  action : String
  success : Bool
  summary : Option String
  slide_index : Option Int
  stub : Option Bool
  message : Option String
  error : Option String
deriving DecidableEq

/-- The qualifying test of the summary heuristic: `len(text) > 10`. -/
def qualifies (t : String) : Bool := 10 < t.length

/-- One summary bullet: `f"- \x7btext[:100]\x7d..."`. -/
def bulletize (t : String) : String := "- " ++ t.take 100 ++ "..."

/-- SlideTools.generate_summary: reads the last 20 transcript entries,
fails if there are none, otherwise keeps the qualifying entries among the
first 5 of those, bulletizes them, joins with newlines, and tracks one
summary injection at the current slide. -/
def SlideTools.generate_summary (s : StateManager) : SummaryResult × StateManager :=
  let recent := s.get_recent_transcript 20
  if recent.isEmpty then
    ({ action := "generate_summary", success := false, summary := none,
       slide_index := none, stub := none, message := none,
       error := some "No transcript available to summarize" }, s)
  else
    let texts := recent.map (·.text)
    let bullets := ((texts.take 5).filter qualifies).map bulletize
    let summary := String.intercalate "\n" bullets
    let s' := s.track_injection "AI:SUMMARY" "summary" (.str summary)
      (some s.current_slide)
    ({ action := "inject_summary", success := true, summary := some summary,
       slide_index := some s.current_slide, stub := some true,
       message := some "Basic summary - will be improved with Gemini API",
       error := none }, s')

/-- The summary bullet list as claim C5 words it ("one bullet per entry from
the first 5 qualifying entries"): filter first, then take 5.  Kept separate
so it can be compared against the source behaviour, which takes the first 5
entries and only then filters. -/
def summaryBulletsClaimC5 (texts : List String) : List String :=
  ((texts.filter qualifies).take 5).map bulletize

/-- The response dict of a tool_executor.FunctionResponse, carrying the
"result" tag and the optional "error" and "data" keys. -/
structure RespPayload (V : Type) where
  result : String
  error : Option String
  data : Option V
deriving DecidableEq

/-- google.genai.types.FunctionResponse as execute_tool builds it: call id,
function name, and the response dict. -/
structure FunctionResponse (V : Type) where
  id : String
  name : String
  response : RespPayload V
deriving DecidableEq

/-- ToolExecutor: the name-to-handler registry.  A handler takes the
argument mapping (abstract type A) and either returns a value or raises
(modelled as Except, the error holding str(e)). -/
structure ToolExecutor (A V : Type) where
  tools : List (String × (A → Except String V))

/-- Dict lookup `self.tools[function_name]` / membership test
`function_name in self.tools`. -/
def lookupTool (ex : ToolExecutor A V) (function_name : String) :
    Option (A → Except String V) :=
  (ex.tools.find? (fun p => p.1 = function_name)).map Prod.snd

/-- ToolExecutor.execute_tool: always returns a FunctionResponse tagged with
the call id and name; unknown name, handler failure and handler success each
map to their fixed response shape.  Totality of this function is the
"never raises to its caller" guarantee. -/
def ToolExecutor.execute_tool (ex : ToolExecutor A V) (function_name : String)
    (function_id : String) (args : A) : FunctionResponse V :=
  match lookupTool ex function_name with
  | none =>
      { id := function_id, name := function_name,
        response := { result := "error: unknown function",
                      error := some ("Unknown function: " ++ function_name),
                      data := none } }
  | some f =>
      match f args with
      | .ok v =>
          { id := function_id, name := function_name,
            response := { result := "success", error := none, data := some v } }
      | .error e =>
          { id := function_id, name := function_name,
            response := { result := "error", error := some e, data := none } }

/-- The fields of audio_processor.AudioProcessor relevant to lifecycle
claims: the bounded queue (frames abstracted to strings), the optional open
stream (abstract handle), whether a capture-loop task exists, and the
running flag. -/
structure AudioProcessor where
  queue_maxsize : Nat
  audio_queue : List String
  audio_stream : Option Nat
  has_capture_task : Bool
  is_running : Bool
deriving DecidableEq

/-- Outcome of AudioProcessor.start_capture: early warning return when
already running, successful start, or a raised setup error. -/
inductive StartOutcome where
  | noopWarning
  | started
  | setupError (msg : String)
deriving DecidableEq

/-- AudioProcessor.__init__. -/
def AudioProcessor.init (queue_maxsize : Nat) : AudioProcessor :=
  { queue_maxsize := queue_maxsize, audio_queue := [], audio_stream := none,
    has_capture_task := false, is_running := false }

/-- AudioProcessor.start_capture.  The device parameter models the outcome
of acquiring and opening the default input device (none: the pyaudio calls
raise).  When already running, the method warns and returns before touching
any field; otherwise it opens the stream, sets the running flag and spawns
the capture-loop task, or re-raises the setup failure leaving the state
unchanged. -/
def AudioProcessor.start_capture (p : AudioProcessor) (device : Option Nat) :
    AudioProcessor × StartOutcome :=
  if p.is_running then
    (p, .noopWarning)
  else
    match device with
    | none => (p, .setupError "Error setting up audio input")
    | some st =>
        ({ p with audio_stream := some st, is_running := true,
                  has_capture_task := true }, .started)

/-- C10: calling start_capture while capture is already running returns as a
no-op with a warning: no error is raised, no second stream is opened, no
second capture task is started, and the whole processor state (running flag,
stream, queue) is unchanged — whatever the device would have yielded. -/
theorem c10_start_capture_already_running (p : AudioProcessor)
    (device : Option Nat) (h : p.is_running = true) :
    p.start_capture device = (p, StartOutcome.noopWarning) := by
  simp [AudioProcessor.start_capture, h]

/-- Witness for C10 at a concrete running processor. -/
theorem c10_start_capture_already_running_witness :
    (⟨5, ["frame0"], some 1, true, true⟩ : AudioProcessor).is_running = true ∧
    AudioProcessor.start_capture ⟨5, ["frame0"], some 1, true, true⟩ (some 2) =
      (⟨5, ["frame0"], some 1, true, true⟩, StartOutcome.noopWarning) :=
  ⟨rfl, c10_start_capture_already_running ⟨5, ["frame0"], some 1, true, true⟩
    (some 2) rfl⟩

/-- C7: generate_summary on an empty transcript returns success=false with
the "No transcript available to summarize" error and leaves the state —
in particular the injection log — completely unchanged. -/
theorem c7_generate_summary_no_transcript (s : StateManager)
    (h : s.transcript = []) :
    SlideTools.generate_summary s =
      ({ action := "generate_summary", success := false, summary := none,
         slide_index := none, stub := none, message := none,
         error := some "No transcript available to summarize" }, s) := by
  simp [SlideTools.generate_summary, StateManager.get_recent_transcript, h]

/-- Witness for C7 at a freshly initialized manager. -/
theorem c7_generate_summary_no_transcript_witness :
    (StateManager.init 3).transcript = [] ∧
    SlideTools.generate_summary (StateManager.init 3) =
      ({ action := "generate_summary", success := false, summary := none,
         slide_index := none, stub := none, message := none,
         error := some "No transcript available to summarize" },
       StateManager.init 3) :=
  ⟨rfl, c7_generate_summary_no_transcript (StateManager.init 3) rfl⟩

/-- C3 (code bug evaluation): with total_slides = 0 ("unbounded") and
current_slide = 0, navigate "next" commits and returns slide 0 — the
source line computes min(current+1, 0) because the Python conditional
expression is the second argument of min — whereas the specified unbounded
behaviour is current+1 = 1. -/
theorem c3_unbounded_next_pins_to_zero :
    (StateManager.navigate (StateManager.init 0) "next" none).map Prod.snd =
      Except.ok 0 ∧
    ((StateManager.init 0).current_slide + 1 : Int) = 1 ∧
    Except.ok (0 : Int) ≠ (Except.ok 1 : Except String Int) := by
  refine ⟨rfl, rfl, ?_⟩
  intro hcontra
  exact absurd (Except.ok.inj hcontra) (by decide)

/-- C4 (counterexample): with one appended entry, get_recent_transcript 0
returns that entry — the Python slice transcript[-0:] is the whole list —
whereas the claim says n ≤ 0 yields the empty sequence. -/
theorem c4_counterexample_n_zero :
    StateManager.get_recent_transcript ⟨0, 0, [⟨"hello world", "user", 0⟩], []⟩ 0 =
      [⟨"hello world", "user", 0⟩] ∧
    ([⟨"hello world", "user", 0⟩] : List TranscriptEntry) ≠ [] := by
  exact ⟨rfl, by decide⟩

/-- C4 (amended): for n ≥ 1, get_recent_transcript returns the last
min(n, k) of the k stored entries, in insertion order (a suffix of the
log); the empty transcript yields the empty sequence for every n; but for
n ≤ 0 on a non-empty transcript it returns the entries from position -n
onward (all of them when n = 0), not the empty sequence. -/
theorem c4_get_recent_transcript_amended (s : StateManager) (n : Int) :
    (1 ≤ n →
      s.get_recent_transcript n =
        s.transcript.drop (s.transcript.length - n.toNat) ∧
      (s.get_recent_transcript n).length =
        min n.toNat s.transcript.length) ∧
    (s.transcript = [] → s.get_recent_transcript n = []) ∧
    (n ≤ 0 → s.transcript ≠ [] →
      s.get_recent_transcript n = s.transcript.drop (-n).toNat) := by
  refine ⟨?_, ?_, ?_⟩
  · intro hn
    cases hemp : s.transcript.isEmpty with
    | true =>
      have h0 : s.transcript = [] := List.isEmpty_iff.mp hemp
      constructor
      · simp [StateManager.get_recent_transcript, h0]
      · simp [StateManager.get_recent_transcript, h0]
    | false =>
      have hdrop : (-n + (s.transcript.length : Int)).toNat =
          s.transcript.length - n.toNat := by omega
      constructor
      · simp only [StateManager.get_recent_transcript, hemp,
          Bool.false_eq_true, if_false, pySliceFrom]
        rw [if_pos (by omega : -n < 0), hdrop]
      · simp only [StateManager.get_recent_transcript, hemp,
          Bool.false_eq_true, if_false, pySliceFrom]
        rw [if_pos (by omega : -n < 0), hdrop, List.length_drop]
        omega
  · intro h
    simp [StateManager.get_recent_transcript, h]
  · intro hn hne
    have hne' : s.transcript.isEmpty = false := by
      simpa [List.isEmpty_iff] using hne
    simp only [StateManager.get_recent_transcript, hne',
      Bool.false_eq_true, if_false, pySliceFrom]
    rw [if_neg (by omega : ¬(-n < 0))]

/-- Witness for the amended C4: three appended entries, n = 2 returns the
last two; the empty log returns nothing; n = 0 returns all three. -/
theorem c4_get_recent_transcript_amended_witness :
    StateManager.get_recent_transcript
        ⟨0, 0, [⟨"a", "user", 0⟩, ⟨"b", "user", 0⟩, ⟨"c", "user", 0⟩], []⟩ 2 =
      [⟨"b", "user", 0⟩, ⟨"c", "user", 0⟩] ∧
    StateManager.get_recent_transcript (StateManager.init 0) 2 = [] ∧
    StateManager.get_recent_transcript
        ⟨0, 0, [⟨"a", "user", 0⟩, ⟨"b", "user", 0⟩, ⟨"c", "user", 0⟩], []⟩ 0 =
      [⟨"a", "user", 0⟩, ⟨"b", "user", 0⟩, ⟨"c", "user", 0⟩] := by
  refine ⟨?_, ?_, ?_⟩
  · have h := (c4_get_recent_transcript_amended
      ⟨0, 0, [⟨"a", "user", 0⟩, ⟨"b", "user", 0⟩, ⟨"c", "user", 0⟩], []⟩ 2).1
      (by decide)
    rw [h.1]; rfl
  · exact (c4_get_recent_transcript_amended (StateManager.init 0) 2).2.1 rfl
  · have h := (c4_get_recent_transcript_amended
      ⟨0, 0, [⟨"a", "user", 0⟩, ⟨"b", "user", 0⟩, ⟨"c", "user", 0⟩], []⟩ 0).2.2
      (by decide) (by decide)
    rw [h]; rfl

/-- C2: execute_tool always returns a FunctionResponse carrying the given
call id and function name (it can never raise: it is a total function), and
the response dict is exactly determined by the dispatch outcome: unknown
name gives result "error: unknown function" with an error message, a raised
handler error gives result "error" with that error text, and a returned
value v gives result "success" with data v. -/
theorem c2_execute_tool_uniform_result {A V : Type} (ex : ToolExecutor A V)
    (function_name function_id : String) (args : A) :
    (ex.execute_tool function_name function_id args).id = function_id ∧
    (ex.execute_tool function_name function_id args).name = function_name ∧
    (lookupTool ex function_name = none →
      (ex.execute_tool function_name function_id args).response =
        { result := "error: unknown function",
          error := some ("Unknown function: " ++ function_name),
          data := none }) ∧
    (∀ f, lookupTool ex function_name = some f →
      (∀ e, f args = .error e →
        (ex.execute_tool function_name function_id args).response =
          { result := "error", error := some e, data := none }) ∧
      (∀ v, f args = .ok v →
        (ex.execute_tool function_name function_id args).response =
          { result := "success", error := none, data := some v })) := by
  cases hlook : lookupTool ex function_name with
  | none =>
    refine ⟨?_, ?_, ?_, ?_⟩
    · simp [ToolExecutor.execute_tool, hlook]
    · simp [ToolExecutor.execute_tool, hlook]
    · intro _; simp [ToolExecutor.execute_tool, hlook]
    · intro f hf; exact absurd hf (by simp)
  | some f =>
    have hid : (ex.execute_tool function_name function_id args).id = function_id := by
      cases hres : f args <;> simp [ToolExecutor.execute_tool, hlook, hres]
    have hname : (ex.execute_tool function_name function_id args).name = function_name := by
      cases hres : f args <;> simp [ToolExecutor.execute_tool, hlook, hres]
    refine ⟨hid, hname, ?_, ?_⟩
    · intro hcontra; exact absurd hcontra (by simp)
    · intro g hg
      obtain rfl : f = g := Option.some.inj hg
      constructor
      · intro e he; simp [ToolExecutor.execute_tool, hlook, he]
      · intro v hv; simp [ToolExecutor.execute_tool, hlook, hv]

/-- A concrete registry for the C2 witness: one succeeding handler and one
handler that raises. -/
def exToolsW : ToolExecutor Nat Nat :=
  ⟨[("good", fun n => .ok (n + 1)), ("bad", fun _ => .error "Intentional error")]⟩

/-- Witness for C2: with the concrete registry, the unknown-name, raising
and succeeding dispatch outcomes each produce their specified response. -/
theorem c2_execute_tool_uniform_result_witness :
    (exToolsW.execute_tool "missing" "id1" 0).id = "id1" ∧
    (exToolsW.execute_tool "missing" "id1" 0).response =
      { result := "error: unknown function",
        error := some ("Unknown function: " ++ "missing"), data := none } ∧
    (exToolsW.execute_tool "bad" "id2" 0).response =
      { result := "error", error := some "Intentional error", data := none } ∧
    (exToolsW.execute_tool "good" "id3" 7).response =
      { result := "success", error := none, data := some 8 } := by
  have h1 := c2_execute_tool_uniform_result exToolsW "missing" "id1" 0
  have h2 := c2_execute_tool_uniform_result exToolsW "bad" "id2" 0
  have h3 := c2_execute_tool_uniform_result exToolsW "good" "id3" 7
  refine ⟨h1.1, h1.2.2.1 rfl, ?_, ?_⟩
  · exact (h2.2.2.2 _ rfl).1 "Intentional error" rfl
  · exact (h3.2.2.2 _ rfl).2 8 rfl

/-- On a non-empty transcript, the last-20 read of generate_summary is
non-empty. -/
theorem get_recent_twenty_nonempty (s : StateManager) (h : s.transcript ≠ []) :
    (s.get_recent_transcript 20).isEmpty = false := by
  have hne' : s.transcript.isEmpty = false := by
    simpa [List.isEmpty_iff] using h
  have hlen : 0 < s.transcript.length := List.length_pos.mpr h
  simp only [StateManager.get_recent_transcript, hne', Bool.false_eq_true,
    if_false, pySliceFrom]
  rw [if_pos (by omega : -(20 : Int) < 0)]
  have hne2 : s.transcript.drop ((-(20 : Int) + s.transcript.length).toNat) ≠ [] := by
    rw [Ne, List.drop_eq_nil_iff]
    omega
  simpa [List.isEmpty_iff] using hne2

/-- C5 (counterexample): with five short entries followed by one long entry,
the source derives zero bullets (it takes the FIRST FIVE entries and then
filters), so the recorded summary is the empty string; whereas "one bullet
per entry from the first 5 qualifying entries" as claimed would yield one
bullet from the long sixth entry. -/
theorem c5_counterexample_first_five_then_filter :
    (SlideTools.generate_summary
      ⟨0, 0, [⟨"short", "user", 0⟩, ⟨"short", "user", 0⟩, ⟨"short", "user", 0⟩,
              ⟨"short", "user", 0⟩, ⟨"short", "user", 0⟩,
              ⟨"this entry is long enough", "user", 0⟩], []⟩).1.summary =
      some "" ∧
    summaryBulletsClaimC5
      ((StateManager.get_recent_transcript
        ⟨0, 0, [⟨"short", "user", 0⟩, ⟨"short", "user", 0⟩, ⟨"short", "user", 0⟩,
                ⟨"short", "user", 0⟩, ⟨"short", "user", 0⟩,
                ⟨"this entry is long enough", "user", 0⟩], []⟩ 20).map (·.text)) =
      ["- this entry is long enough..."] ∧
    ("" : String) ≠ "- this entry is long enough..." := by
  refine ⟨rfl, rfl, by decide⟩

/-- C5 (amended): on a non-empty transcript, generate_summary returns
success=true with stub:true, the summary being the newline join of one
bullet per QUALIFYING entry among the first 5 of the last 20 entries
(qualifying: text length > 10; bullet: text truncated to 100 characters),
and appends exactly one injection with content-type "summary" holding that
summary at the current slide; transcript and slide position are unchanged. -/
theorem c5_generate_summary_amended (s : StateManager) (h : s.transcript ≠ []) :
    (SlideTools.generate_summary s).1.success = true ∧
    (SlideTools.generate_summary s).1.stub = some true ∧
    (SlideTools.generate_summary s).1.summary =
      some (String.intercalate "\n"
        (((((s.get_recent_transcript 20).map (·.text)).take 5).filter
          qualifies).map bulletize)) ∧
    (SlideTools.generate_summary s).2.injections =
      s.injections ++ [⟨s.current_slide, "AI:SUMMARY", "summary",
        .str (String.intercalate "\n"
          (((((s.get_recent_transcript 20).map (·.text)).take 5).filter
            qualifies).map bulletize))⟩] ∧
    (SlideTools.generate_summary s).2.transcript = s.transcript ∧
    (SlideTools.generate_summary s).2.current_slide = s.current_slide := by
  have hfalse := get_recent_twenty_nonempty s h
  refine ⟨?_, ?_, ?_, ?_, ?_, ?_⟩ <;>
    simp [SlideTools.generate_summary, hfalse, StateManager.track_injection]

/-- Witness for the amended C5 at a one-entry transcript whose text
qualifies. -/
theorem c5_generate_summary_amended_witness :
    (SlideTools.generate_summary
      ⟨7, 2, [⟨"this is a long transcript entry", "user", 0⟩], []⟩).1.success =
        true ∧
    (SlideTools.generate_summary
      ⟨7, 2, [⟨"this is a long transcript entry", "user", 0⟩], []⟩).1.summary =
      some (String.intercalate "\n"
        (((((StateManager.get_recent_transcript
            ⟨7, 2, [⟨"this is a long transcript entry", "user", 0⟩], []⟩
            20).map (·.text)).take 5).filter qualifies).map bulletize)) ∧
    (SlideTools.generate_summary
      ⟨7, 2, [⟨"this is a long transcript entry", "user", 0⟩], []⟩).2.injections =
      [⟨2, "AI:SUMMARY", "summary", .str "- this is a long transcript entry..."⟩] := by
  have h := c5_generate_summary_amended
    ⟨7, 2, [⟨"this is a long transcript entry", "user", 0⟩], []⟩ (by decide)
  refine ⟨h.1, h.2.2.1, ?_⟩
  rw [h.2.2.2.1]; rfl

/-- C9: on a non-empty transcript none of whose first 5 of the last 20
entries qualifies (text length > 10), generate_summary still succeeds with
stub:true and records exactly one injection with content-type "summary"
whose content is the empty string. -/
theorem c9_generate_summary_no_qualifying (s : StateManager)
    (h1 : s.transcript ≠ [])
    (h2 : ∀ t ∈ ((s.get_recent_transcript 20).map (·.text)).take 5,
      qualifies t = false) :
    (SlideTools.generate_summary s).1.success = true ∧
    (SlideTools.generate_summary s).1.stub = some true ∧
    (SlideTools.generate_summary s).1.summary = some "" ∧
    (SlideTools.generate_summary s).2.injections =
      s.injections ++ [⟨s.current_slide, "AI:SUMMARY", "summary", .str ""⟩] := by
  have hfalse := get_recent_twenty_nonempty s h1
  have hfilter : (((s.get_recent_transcript 20).map (·.text)).take 5).filter
      qualifies = [] := by
    rw [List.filter_eq_nil_iff]
    intro t ht
    simp [h2 t ht]
  refine ⟨?_, ?_, ?_, ?_⟩ <;>
    simp [SlideTools.generate_summary, hfalse, hfilter,
      StateManager.track_injection, String.intercalate]

/-- Witness for C9 at a one-entry transcript whose text is too short to
qualify. -/
theorem c9_generate_summary_no_qualifying_witness :
    (SlideTools.generate_summary ⟨0, 0, [⟨"hi", "user", 0⟩], []⟩).1.success =
      true ∧
    (SlideTools.generate_summary ⟨0, 0, [⟨"hi", "user", 0⟩], []⟩).1.summary =
      some "" ∧
    (SlideTools.generate_summary ⟨0, 0, [⟨"hi", "user", 0⟩], []⟩).2.injections =
      [⟨0, "AI:SUMMARY", "summary", .str ""⟩] := by
  have h := c9_generate_summary_no_qualifying ⟨0, 0, [⟨"hi", "user", 0⟩], []⟩
    (by decide) (by decide)
  refine ⟨h.1, h.2.2.1, ?_⟩
  rw [h.2.2.2]; rfl

/-- The slide-bound invariant of the data model: a positive total bounds the
current slide into [0, total). -/
def slideInv (s : StateManager) : Prop :=
  0 < s.total_slides → 0 ≤ s.current_slide ∧ s.current_slide < s.total_slides

/-- Whether an operation is set_total_slides. -/
def Op.isSetTotalSlides : Op → Bool
  | .setTotalSlides _ => true
  | _ => false

/-- Whether all explicit index arguments of an operation are nonnegative. -/
def Op.nonnegArgs : Op → Bool
  | .setCurrentSlide i => decide (0 ≤ i)
  | .navigate _ (some i) => decide (0 ≤ i)
  | _ => true

theorem navCommitKeep_slideInv (s : StateManager) (n : Int) (hs : slideInv s) :
    slideInv (match navCommit s n with | .ok (s', _) => s' | .error _ => s) := by
  by_cases hcond : 0 < s.total_slides ∧ (n < 0 ∨ s.total_slides ≤ n)
  · rw [navCommit, if_pos hcond]; exact hs
  · rw [navCommit, if_neg hcond]
    show 0 < s.total_slides → 0 ≤ n ∧ n < s.total_slides
    intro hT; omega

theorem navigateKeep_slideInv (s : StateManager) (d : String) (i : Option Int)
    (hs : slideInv s) : slideInv (navigateKeep s d i) := by
  unfold navigateKeep StateManager.navigate
  by_cases h1 : d = "next"
  · rw [if_pos h1]; exact navCommitKeep_slideInv s _ hs
  · rw [if_neg h1]
    by_cases h2 : d = "prev"
    · rw [if_pos h2]; exact navCommitKeep_slideInv s _ hs
    · rw [if_neg h2]
      by_cases h3 : d = "jump"
      · rw [if_pos h3]
        cases i with
        | none => exact hs
        | some j => exact navCommitKeep_slideInv s j hs
      · rw [if_neg h3]; exact hs

theorem applyOrKeep_navigate (s : StateManager) (d : String) (i : Option Int) :
    applyOrKeep s (.navigate d i) = navigateKeep s d i := by
  unfold applyOrKeep applyOp navigateKeep
  cases h : s.navigate d i with
  | ok p => cases p with | mk a b => simp [h, Except.map]
  | error e => simp [h, Except.map]

theorem applyOrKeep_slideInv (s : StateManager) (op : Op)
    (hop : op.isSetTotalSlides = false) (hs : slideInv s) :
    slideInv (applyOrKeep s op) := by
  cases op with
  | setCurrentSlide i =>
    have happ : applyOrKeep s (Op.setCurrentSlide i) =
        (match s.set_current_slide i with
          | .ok s' => s' | .error _ => s) := rfl
    rw [happ]
    by_cases hcond : 0 < s.total_slides ∧ (i < 0 ∨ s.total_slides ≤ i)
    · unfold StateManager.set_current_slide
      rw [if_pos hcond]; exact hs
    · unfold StateManager.set_current_slide
      rw [if_neg hcond]
      show 0 < s.total_slides → 0 ≤ i ∧ i < s.total_slides
      intro hT; omega
  | navigate d i =>
    rw [applyOrKeep_navigate]
    exact navigateKeep_slideInv s d i hs
  | addTranscriptEntry t sp => exact hs
  | trackInjection p ct c si => exact hs
  | setTotalSlides t => exact absurd hop (by simp [Op.isSetTotalSlides])
  | clearTranscript => exact hs
  | clearInjections => exact hs
  | reset =>
    show 0 < s.total_slides → 0 ≤ (0 : Int) ∧ (0 : Int) < s.total_slides
    intro hT; omega

theorem runKeep_slideInv (ops : List Op) :
    ∀ s : StateManager, (∀ op ∈ ops, op.isSetTotalSlides = false) →
      slideInv s → slideInv (runKeep s ops) := by
  induction ops with
  | nil => intro s _ hs; exact hs
  | cons op ops ih =>
    intro s hops hs
    exact ih _ (fun o ho => hops o (List.mem_cons_of_mem _ ho))
      (applyOrKeep_slideInv s op (hops op (List.mem_cons_self _ _)) hs)

/-- C1 (counterexample): from StateManager(0), set_current_slide(5) and
set_total_slides(3) both succeed and leave total_slides = 3 > 0 with
current_slide = 5 outside [0, 3): set_total_slides commits a new total
without re-checking the current slide, so the claimed invariant over all
successful public operations fails. -/
theorem c1_counterexample_set_total_slides :
    (runOps (StateManager.init 0)
        [Op.setCurrentSlide 5, Op.setTotalSlides 3]).map
      (fun s => (s.total_slides, s.current_slide)) =
      Except.ok ((3 : Int), (5 : Int)) ∧
    ¬ (0 < (3 : Int) → 0 ≤ (5 : Int) ∧ (5 : Int) < 3) :=
  ⟨rfl, by decide⟩

/-- C1 (amended): in every state reachable from initialization by any
sequence of public operations that does not include set_total_slides
(failed operations leaving the state unchanged, as the raises in the source
precede any mutation), a positive total_slides bounds current_slide into
[0, total_slides). -/
theorem c1_slide_bound_invariant_amended (T : Int) (ops : List Op)
    (h : ∀ op ∈ ops, op.isSetTotalSlides = false) :
    0 < (runKeep (StateManager.init T) ops).total_slides →
    0 ≤ (runKeep (StateManager.init T) ops).current_slide ∧
      (runKeep (StateManager.init T) ops).current_slide <
        (runKeep (StateManager.init T) ops).total_slides :=
  runKeep_slideInv ops (StateManager.init T) h (fun hT => ⟨le_refl 0, hT⟩)

/-- Witness for the amended C1 on a concrete operation sequence. -/
theorem c1_slide_bound_invariant_amended_witness :
    (∀ op ∈ [Op.navigate "next" none, Op.setCurrentSlide 2],
      op.isSetTotalSlides = false) ∧
    (0 ≤ (runKeep (StateManager.init 10)
        [Op.navigate "next" none, Op.setCurrentSlide 2]).current_slide ∧
      (runKeep (StateManager.init 10)
        [Op.navigate "next" none, Op.setCurrentSlide 2]).current_slide <
      (runKeep (StateManager.init 10)
        [Op.navigate "next" none, Op.setCurrentSlide 2]).total_slides) :=
  ⟨by decide, c1_slide_bound_invariant_amended 10 _ (by decide) (by decide)⟩

theorem navCommitKeep_nonneg (s : StateManager) (n : Int) (hn : 0 ≤ n)
    (hs : 0 ≤ s.current_slide) :
    0 ≤ (match navCommit s n with
          | .ok (s', _) => s' | .error _ => s).current_slide := by
  by_cases hcond : 0 < s.total_slides ∧ (n < 0 ∨ s.total_slides ≤ n)
  · rw [navCommit, if_pos hcond]; exact hs
  · rw [navCommit, if_neg hcond]; exact hn

theorem navigateKeep_nonneg (s : StateManager) (d : String) (i : Option Int)
    (hi : ∀ j, i = some j → 0 ≤ j) (hs : 0 ≤ s.current_slide) :
    0 ≤ (navigateKeep s d i).current_slide := by
  unfold navigateKeep StateManager.navigate
  by_cases h1 : d = "next"
  · rw [if_pos h1]
    refine navCommitKeep_nonneg s _ ?_ hs
    have h3 : (0 : Int) ≤ (if 0 < s.total_slides then s.total_slides - 1 else 0) := by
      by_cases h4 : 0 < s.total_slides
      · rw [if_pos h4]; omega
      · rw [if_neg h4]
    exact le_min (by omega) h3
  · rw [if_neg h1]
    by_cases h2 : d = "prev"
    · rw [if_pos h2]
      exact navCommitKeep_nonneg s _ (le_max_right _ _) hs
    · rw [if_neg h2]
      by_cases h3 : d = "jump"
      · rw [if_pos h3]
        cases i with
        | none => exact hs
        | some j => exact navCommitKeep_nonneg s j (hi j rfl) hs
      · rw [if_neg h3]; exact hs

theorem applyOrKeep_nonneg (s : StateManager) (op : Op)
    (hop : op.nonnegArgs = true) (hs : 0 ≤ s.current_slide) :
    0 ≤ (applyOrKeep s op).current_slide := by
  cases op with
  | setCurrentSlide i =>
    have hi : 0 ≤ i := by simpa [Op.nonnegArgs] using hop
    have happ : applyOrKeep s (Op.setCurrentSlide i) =
        (match s.set_current_slide i with
          | .ok s' => s' | .error _ => s) := rfl
    rw [happ]
    by_cases hcond : 0 < s.total_slides ∧ (i < 0 ∨ s.total_slides ≤ i)
    · unfold StateManager.set_current_slide
      rw [if_pos hcond]; exact hs
    · unfold StateManager.set_current_slide
      rw [if_neg hcond]; exact hi
  | navigate d i =>
    rw [applyOrKeep_navigate]
    refine navigateKeep_nonneg s d i ?_ hs
    intro j hj
    rw [hj] at hop
    simpa [Op.nonnegArgs] using hop
  | addTranscriptEntry t sp => exact hs
  | trackInjection p ct c si => exact hs
  | setTotalSlides t => exact hs
  | clearTranscript => exact hs
  | clearInjections => exact hs
  | reset => exact le_refl 0

theorem runKeep_nonneg (ops : List Op) :
    ∀ s : StateManager, (∀ op ∈ ops, op.nonnegArgs = true) →
      0 ≤ s.current_slide → 0 ≤ (runKeep s ops).current_slide := by
  induction ops with
  | nil => intro s _ hs; exact hs
  | cons op ops ih =>
    intro s hops hs
    exact ih _ (fun o ho => hops o (List.mem_cons_of_mem _ ho))
      (applyOrKeep_nonneg s op (hops op (List.mem_cons_self _ _)) hs)

/-- C8 (counterexample): from StateManager(0), set_current_slide(-1)
succeeds and commits the negative index -1: with total_slides = 0 the
method performs no validation at all. -/
theorem c8_counterexample_negative_index :
    (runOps (StateManager.init 0) [Op.setCurrentSlide (-1)]).map
      (fun s => s.current_slide) = Except.ok (-1 : Int) ∧
    ¬ ((0 : Int) ≤ (-1 : Int)) :=
  ⟨rfl, by decide⟩

/-- C8 (amended): current_slide stays nonnegative in every state reachable
by public operations whose explicit index arguments are all nonnegative
(next and prev preserve nonnegativity unconditionally; set_current_slide
and jump can only go negative when handed a negative index while
total_slides = 0 disables validation). -/
theorem c8_current_slide_nonneg_amended (T : Int) (ops : List Op)
    (h : ∀ op ∈ ops, op.nonnegArgs = true) :
    0 ≤ (runKeep (StateManager.init T) ops).current_slide :=
  runKeep_nonneg ops (StateManager.init T) h (le_refl 0)

/-- Witness for the amended C8 on a concrete operation sequence. -/
theorem c8_current_slide_nonneg_amended_witness :
    (∀ op ∈ [Op.setCurrentSlide 3, Op.navigate "prev" none],
      op.nonnegArgs = true) ∧
    0 ≤ (runKeep (StateManager.init 0)
        [Op.setCurrentSlide 3, Op.navigate "prev" none]).current_slide :=
  ⟨by decide, c8_current_slide_nonneg_amended 0 _ (by decide)⟩

/-- C6: from any state satisfying the data-model bounds (nonnegative
current slide, below the total when the total is positive), navigate with
direction in {next, prev, jump} fails exactly in two cases, each leaving
current_slide unchanged: a jump to an index outside [0, total) while the
deck is bounded, and a jump with no index (a descriptive missing-argument
error); next, prev and an in-range jump always succeed. -/
theorem c6_navigate_failure_cases (s : StateManager) (i : Int)
    (h0 : 0 ≤ s.current_slide)
    (hb : 0 < s.total_slides → s.current_slide < s.total_slides) :
    (0 < s.total_slides → i < 0 ∨ s.total_slides ≤ i →
      s.navigate "jump" (some i) =
        .error ("Cannot navigate to slide " ++ toString i ++ " (range: 0-"
          ++ toString (s.total_slides - 1) ++ ")") ∧
      navigateKeep s "jump" (some i) = s) ∧
    (s.navigate "jump" none =
        .error "Index required for \x27jump\x27 navigation" ∧
      navigateKeep s "jump" none = s) ∧
    (∃ out, s.navigate "next" none = Except.ok out) ∧
    (∃ out, s.navigate "prev" none = Except.ok out) ∧
    ((0 < s.total_slides → 0 ≤ i ∧ i < s.total_slides) →
      ∃ out, s.navigate "jump" (some i) = Except.ok out) := by
  have ej : s.navigate "jump" (some i) = navCommit s i := rfl
  have ejn : s.navigate "jump" none =
      .error "Index required for \x27jump\x27 navigation" := rfl
  have en : s.navigate "next" none =
      navCommit s (min (s.current_slide + 1)
        (if 0 < s.total_slides then s.total_slides - 1 else 0)) := rfl
  have ep : s.navigate "prev" none =
      navCommit s (max (s.current_slide - 1) 0) := rfl
  refine ⟨?_, ⟨ejn, ?_⟩, ?_, ?_, ?_⟩
  · intro hT hi
    have hcond : 0 < s.total_slides ∧ (i < 0 ∨ s.total_slides ≤ i) := ⟨hT, hi⟩
    constructor
    · rw [ej, navCommit, if_pos hcond]
    · unfold navigateKeep
      rw [ej, navCommit, if_pos hcond]
  · unfold navigateKeep
    rw [ejn]
  · rw [en]
    by_cases hT : 0 < s.total_slides
    · rw [if_pos hT, navCommit, if_neg ?_]
      · exact ⟨_, rfl⟩
      · have hc := hb hT
        rintro ⟨-, hcase⟩
        omega
    · rw [if_neg hT, navCommit, if_neg (fun hcontra => hT hcontra.1)]
      exact ⟨_, rfl⟩
  · rw [ep, navCommit, if_neg ?_]
    · exact ⟨_, rfl⟩
    · rintro ⟨hT, hcase⟩
      have hc := hb hT
      omega
  · intro hri
    rw [ej, navCommit, if_neg ?_]
    · exact ⟨_, rfl⟩
    · rintro ⟨hT, hcase⟩
      have := hri hT
      omega

/-- Witness for C6 at a concrete bounded state (10 slides, current 5),
with the out-of-range jump index 12 and the in-range jump index 7. -/
theorem c6_navigate_failure_cases_witness :
    StateManager.navigate ⟨10, 5, [], []⟩ "jump" (some 12) =
      .error "Cannot navigate to slide 12 (range: 0-9)" ∧
    navigateKeep ⟨10, 5, [], []⟩ "jump" (some 12) = ⟨10, 5, [], []⟩ ∧
    StateManager.navigate ⟨10, 5, [], []⟩ "jump" none =
      .error "Index required for \x27jump\x27 navigation" ∧
    (∃ out, StateManager.navigate ⟨10, 5, [], []⟩ "next" none = Except.ok out) ∧
    (∃ out, StateManager.navigate ⟨10, 5, [], []⟩ "prev" none = Except.ok out) ∧
    (∃ out, StateManager.navigate ⟨10, 5, [], []⟩ "jump" (some 7) =
      Except.ok out) := by
  have hA := c6_navigate_failure_cases ⟨10, 5, [], []⟩ 12 (by decide)
    (fun _ => by decide)
  have hB := c6_navigate_failure_cases ⟨10, 5, [], []⟩ 7 (by decide)
    (fun _ => by decide)
  have h1 := hA.1 (by decide) (by decide)
  exact ⟨h1.1, h1.2, hA.2.1.1, hA.2.2.1, hA.2.2.2.1, hB.2.2.2.2 (by decide)⟩

end AgenticDuo
